import Mathlib

/-!
Verification of the smart git-fetch cache of the colorful-carbon VS Code
extension.

The subsystem lives as shell-template strings in `src/unnamed/part_001`:

* the zsh function `__colorful_carbon_fetch` (the background synchronizer),
  emitted both by `installSmartFetch` (lines 235-284) and by
  `getZshrcContent` (lines 833-880);
* the `git` wrapper function emitted by `getZshrcContent` (lines 898-948),
  whose lines 909-931 update the fetch cache after a successful manual
  `git pull` / `git fetch`;
* the starship `custom.git_upstream` snippet emitted by
  `getStarshipContent` (lines 1040-1113), whose lines 1061-1082 decide
  whether to print the `(#synced)` indicator (the trust evaluator).

The definitions below are a shallow embedding of that shell code.  Shell
wall-clock reads (`date +%s`) become explicit `Int` parameters; the
`$HOME/.git-fetch-cache` directory becomes a `Store` mapping file names to
contents and mtimes; subprocess availability and outcomes (`shasum`,
`mkdir`, `touch`, `git fetch`) become fields of a `ShellEnv`.
-/

namespace Carbon

/-- Content of a cache file as the shell observes it.  `timestamp t` is a
decimal numeral, the only thing the code itself ever writes
(`echo $now > "$cache_file"`); `garbage` is any other readable content;
`unreadable` is a file that exists but `cat` cannot read. -/
inductive FileData where
  | timestamp (t : Int)
  | garbage (s : String)
  | unreadable
deriving DecidableEq

/-- A file in the cache directory: its content and its filesystem mtime
(the `find -mtime` sweep keys on the mtime, not on the content). -/
structure CacheFile where
  data : FileData
  mtime : Int
deriving DecidableEq

/-- The `$HOME/.git-fetch-cache` directory.  `files` holds the plain
per-repository timestamp files (keyed by the hash used as the file name);
`locks` holds the `<hash>.lock` markers, recording the mtime of the
`touch` that created them. -/
structure Store where
  files : String → Option CacheFile
  locks : String → Option Int

/-- The cache directory with no files at all. -/
def emptyStore : Store := ⟨fun _ => none, fun _ => none⟩

/-- Write (create or replace) a plain cache file. -/
def updateFiles (st : Store) (k : String) (v : Option CacheFile) : Store :=
  { st with files := fun x => if x = k then v else st.files x }

/-- Create, overwrite or remove a `.lock` marker. -/
def updateLocks (st : Store) (k : String) (v : Option Int) : Store :=
  { st with locks := fun x => if x = k then v else st.locks x }

/-- Reading the last-fetch timestamp, as done identically at lines 252-253
(zsh) and 1074-1075 (sh):

    last_fetch=0
    [ -f "$cache_file" ] && last_fetch=$(cat "$cache_file" 2>/dev/null || echo 0)

A missing file and an unreadable file (where `cat` fails, taking the
`|| echo 0` branch) both give 0.  Non-numeric readable content is also
modelled as 0: in the arithmetic expansion `$((now - last_fetch))` zsh and
bash evaluate a variable holding a non-numeric word recursively, and an
unset name evaluates to 0.  (Strictly POSIX shells may instead raise an
arithmetic error on such content; the deployed interpreters are zsh for
the fetch function and `sh` for the starship snippet.) -/
def readLastFetch : Option FileData → Int
  | some (.timestamp t) => t
  | some (.garbage _) => 0
  | some .unreadable => 0
  | none => 0

/-- The freshness window used by both the fetch function (line 257,
`[[ $age -lt 900 ]]`) and the starship snippet (line 1079,
`[ $age -lt 900 ]`). -/
def freshnessWindow : Int := 900

/-- The trust evaluator: the `(#synced)` decision of the starship
`custom.git_upstream` snippet, lines 1073-1081.  Reads the cache file for
`key`, computes `age = now - last_fetch`, and reports fresh when
`age < 900`.  It is a pure function of the store and the clock. -/
def isFresh (st : Store) (key : String) (now : Int) : Bool :=
  now - readLastFetch ((st.files key).map CacheFile.data) < freshnessWindow

/-- The maintenance sweep, line 264 (and 862):

    find "$cache_dir" -type f -not -name "*.lock" -mtime +30 -delete

POSIX `find -mtime +30` selects files whose age in seconds, divided by
86400 with the remainder discarded, exceeds 30.  Lock markers are
excluded by `-not -name "*.lock"` and are never touched. -/
def sweepStore (st : Store) (now : Int) : Store :=
  { files := fun k =>
      match st.files k with
      | some f => if 30 < (now - f.mtime) / 86400 then none else some f
      | none => none
    locks := st.locks }

/-- The ambient shell environment of one repository visit: what the `git`
probes report, which hash commands exist and what they print, whether the
opt-out variable is set, and whether the filesystem and network
operations succeed. -/
structure ShellEnv where
  inGitRepo : Bool
  repoRoot : String
  shasumAvailable : Bool
  sha256sumAvailable : Bool
  sha : String → String
  sha2 : String → String
  disableAutofetch : Bool
  mkdirOk : Bool
  touchOk : Bool
  fetchSucceeds : Bool

/-- Path mangling fallback, lines 923 and 1070: `sed "s/\//_/g"` replaces
every slash in the repository root by an underscore. -/
def mangle (s : String) : String :=
  ⟨s.data.map fun c => if c = '/' then '_' else c⟩

/-- The hash fallback chain used by the git wrapper (lines 917-924) and
the starship snippet (lines 1064-1071): `shasum -a 256` when available,
else `sha256sum`, else raw path mangling. -/
def hashChain (env : ShellEnv) (root : String) : String :=
  if env.shasumAvailable then env.sha root
  else if env.sha256sumAvailable then env.sha2 root
  else mangle root

/-- The identity computed by the fetch function itself, line 246:

    hash=$(echo -n "$repo_root" | shasum -a 256 2>/dev/null | cut -d" " -f1)

There is no fallback chain here: when `shasum` is unavailable the
substitution produces the empty string. -/
def fetchHash (env : ShellEnv) : String :=
  if env.shasumAvailable then env.sha env.repoRoot else ""

/-- Result of one complete `__colorful_carbon_fetch` call, including the
completion of its detached subshell: the resulting cache directory plus
flags recording which observable actions the call performed. -/
structure SyncResult where
  store : Store
  readStore : Bool
  sweepRan : Bool
  lockCreated : Bool
  fetched : Bool
  wroteRecord : Bool

/-- A call that returned without touching or reading the cache. -/
def noopResult (st : Store) : SyncResult :=
  ⟨st, false, false, false, false, false⟩

/-- One complete run of `__colorful_carbon_fetch` (lines 237-273),
executed without interference from other processes.  `now` is the value
of `date +%s` at line 254; `endTime` is the wall-clock time at which the
detached subshell finishes and performs its write.  Control flow follows
the source exactly: layer 1 (`git rev-parse --git-dir`), layer 2 (root
and hash, returning on an empty hash), layer 3 (cache read and the
`age < 900` early return), then the lock-existence check, `mkdir -p`
(returning on failure), the `find` sweep, `touch` of the lock (returning
on failure), and the detached subshell that fetches, writes `$now` on
success, and removes the lock. -/
def maybeSyncRun (env : ShellEnv) (now endTime : Int) (st : Store) : SyncResult :=
  if !env.inGitRepo then noopResult st
  else if env.repoRoot = "" then noopResult st
  else if fetchHash env = "" then noopResult st
  else
    let key := fetchHash env
    let last := readLastFetch ((st.files key).map CacheFile.data)
    if now - last < freshnessWindow then { noopResult st with readStore := true }
    else if (st.locks key).isSome then { noopResult st with readStore := true }
    else if !env.mkdirOk then { noopResult st with readStore := true }
    else
      let st1 := sweepStore st now
      if !env.touchOk then
        { store := st1, readStore := true, sweepRan := true,
          lockCreated := false, fetched := false, wroteRecord := false }
      else
        let st2 := updateLocks st1 key (some now)
        let st3 := if env.fetchSucceeds
          then updateFiles st2 key (some ⟨.timestamp now, endTime⟩)
          else st2
        let st4 := updateLocks st3 key none
        { store := st4, readStore := true, sweepRan := true,
          lockCreated := true, fetched := true, wroteRecord := env.fetchSucceeds }

/-- The cache update inside the `git` wrapper, lines 909-931: after the
real git command exited with code 0 and when the opt-out variable is
unset, for subcommands `pull` and `fetch`, inside a git repository with a
non-empty root, the wrapper computes the hash via the fallback chain and
runs `mkdir -p "$cache_dir" && echo $(date +%s) > "$cache_file"`.  `now`
is `date +%s` at the moment of the write.  Returns the new store and
whether a write happened.  No lock marker is consulted, created, or
removed on this path. -/
def wrapperCacheUpdate (env : ShellEnv) (subcommand : String) (exitCode : Int)
    (now : Int) (st : Store) : Store × Bool :=
  if exitCode = 0 ∧ env.disableAutofetch = false then
    if subcommand = "pull" ∨ subcommand = "fetch" then
      if env.inGitRepo then
        if env.repoRoot ≠ "" then
          if env.mkdirOk then
            (updateFiles st (hashChain env env.repoRoot)
              (some ⟨.timestamp now, now⟩), true)
          else (st, false)
        else (st, false)
      else (st, false)
    else (st, false)
  else (st, false)

/-- Repository identity resolution as performed by the starship snippet
(lines 1062-1071) and the git wrapper (lines 914-924): run
`git rev-parse --show-toplevel` from the current directory and hash the
resulting top-level root through the fallback chain.  `toplevel` abstracts
git's resolution of a directory to its working-tree root (`none` when the
directory is not inside a repository); a directory inside a working tree
resolves to that tree's single root, which is what makes cache entries
per-repository rather than per-subdirectory. -/
def resolveId (env : ShellEnv) (toplevel : String → Option String)
    (d : String) : Option String :=
  match toplevel d with
  | none => none
  | some root => if root = "" then none else some (hashChain env root)

/-- Program counter of one in-flight `__colorful_carbon_fetch` call, at
the boundaries where another process can interleave: after the freshness
check (lines 238-257), after the lock-existence check (line 261), after
`mkdir` and the sweep (lines 263-264), after the `touch` (line 266), and
after the detached subshell (lines 267-272) has run. -/
inductive BgPC where
  | start
  | atLockCheck
  | atMkdir
  | atTouch
  | running
  | halted
deriving DecidableEq

/-- One in-flight `__colorful_carbon_fetch` call: its program counter,
the value of `$now` it captured at line 254 (written to the cache file at
line 269, after the fetch), and whether its subshell has run the fetch. -/
structure BgProc where
  pc : BgPC
  checkNow : Int
  fetched : Bool
deriving DecidableEq

/-- A call that has not started yet. -/
def initBgProc : BgProc := ⟨.start, 0, false⟩

/-- One atomic step of an in-flight `__colorful_carbon_fetch` call
against the shared cache directory, taken at wall-clock time `now`.
Each step is a contiguous run of source lines that touches the shared
store at most once. -/
def bgStep (env : ShellEnv) (now : Int) (st : Store) (p : BgProc) :
    Store × BgProc :=
  match p.pc with
  | .start =>
      if !env.inGitRepo then (st, { p with pc := .halted })
      else if env.repoRoot = "" then (st, { p with pc := .halted })
      else if fetchHash env = "" then (st, { p with pc := .halted })
      else
        let last := readLastFetch ((st.files (fetchHash env)).map CacheFile.data)
        if now - last < freshnessWindow then (st, { p with pc := .halted })
        else (st, { p with pc := .atLockCheck, checkNow := now })
  | .atLockCheck =>
      if (st.locks (fetchHash env)).isSome then (st, { p with pc := .halted })
      else (st, { p with pc := .atMkdir })
  | .atMkdir =>
      if !env.mkdirOk then (st, { p with pc := .halted })
      else (sweepStore st now, { p with pc := .atTouch })
  | .atTouch =>
      if !env.touchOk then (st, { p with pc := .halted })
      else (updateLocks st (fetchHash env) (some now), { p with pc := .running })
  | .running =>
      let st1 := if env.fetchSucceeds
        then updateFiles st (fetchHash env) (some ⟨.timestamp p.checkNow, now⟩)
        else st
      (updateLocks st1 (fetchHash env) none,
        { p with pc := .halted, fetched := true })
  | .halted => (st, p)

/-- A configuration of two concurrent shell sessions in the same
repository: the shared cache directory and the two in-flight
`__colorful_carbon_fetch` calls. -/
structure MachineCfg where
  store : Store
  proc1 : BgProc
  proc2 : BgProc

/-- A scheduling event: one step of the first call, one step of the
second call, or a successful manual `git pull` completing in some
session, each at a given wall-clock time. -/
inductive Evt where
  | act1 (now : Int)
  | act2 (now : Int)
  | manualPull (now : Int)

/-- Apply one scheduling event to a configuration. -/
def machineStep (env : ShellEnv) (cfg : MachineCfg) : Evt → MachineCfg
  | .act1 now =>
      let r := bgStep env now cfg.store cfg.proc1
      { cfg with store := r.1, proc1 := r.2 }
  | .act2 now =>
      let r := bgStep env now cfg.store cfg.proc2
      { cfg with store := r.1, proc2 := r.2 }
  | .manualPull now =>
      { cfg with store := (wrapperCacheUpdate env "pull" 0 now cfg.store).1 }

/-- Run a whole schedule of events. -/
def runMachine (env : ShellEnv) : List Evt → MachineCfg → MachineCfg
  | [], cfg => cfg
  | e :: rest, cfg => runMachine env rest (machineStep env cfg e)

/-! Concrete fixtures used by the counterexamples and witnesses below. -/

/-- A repository at `/r` where every probe succeeds; `shasum` prints `h`
for every input (standing for the 64-character digest). -/
def exEnv : ShellEnv :=
  { inGitRepo := true, repoRoot := "/r",
    shasumAvailable := true, sha256sumAvailable := true,
    sha := fun _ => "h", sha2 := fun _ => "h2",
    disableAutofetch := false, mkdirOk := true, touchOk := true,
    fetchSucceeds := true }

/-- A repository at `/r` on a system with neither `shasum` nor
`sha256sum`, so the fallback chain bottoms out at path mangling. -/
def wEnv : ShellEnv :=
  { inGitRepo := true, repoRoot := "/r",
    shasumAvailable := false, sha256sumAvailable := false,
    sha := fun _ => "h", sha2 := fun _ => "h2",
    disableAutofetch := false, mkdirOk := true, touchOk := true,
    fetchSucceeds := true }

/-- Two sessions interleaved so that both pass the lock-existence check
before either creates the lock. -/
def c1Sched : List Evt :=
  [.act1 1000, .act2 1001, .act1 1002, .act2 1003, .act1 1004, .act2 1005,
   .act1 1006, .act2 1007, .act1 1008, .act2 1009]

/-- Empty cache, both fetch calls not yet started. -/
def c1Init : MachineCfg := ⟨emptyStore, initBgProc, initBgProc⟩

/-- Cache holding a record written at epoch second 0 for key `h`, both
fetch calls not yet started. -/
def c5Init : MachineCfg :=
  ⟨updateFiles emptyStore "h" (some ⟨.timestamp 0, 0⟩), initBgProc, initBgProc⟩

/-- One background sync runs up to its `touch`, then a manual pull lands
at second 1500. -/
def c5SchedA : List Evt :=
  [.act1 1000, .act1 1001, .act1 1002, .act1 1003, .manualPull 1500]

/-- The same prefix, after which the background subshell completes at
second 2000 and performs its write. -/
def c5SchedB : List Evt := c5SchedA ++ [.act1 2000]

/-- A cache whose file for key `k` exists but cannot be read. -/
def c7Store : Store := updateFiles emptyStore "k" (some ⟨.unreadable, 0⟩)

/-- A cache holding only an orphaned lock marker for key `k`, created at
epoch second 0, with no matching record. -/
def c3Store : Store := updateLocks emptyStore "k" (some 0)

/-- A cache holding one record for key `k`, written at epoch second 0. -/
def c8Store : Store := updateFiles emptyStore "k" (some ⟨.timestamp 0, 0⟩)

/-- A cache holding a record for key `h` (the digest `exEnv` computes)
written at epoch second 50. -/
def c4St : Store := updateFiles emptyStore "h" (some ⟨.timestamp 50, 50⟩)

/-- A cache holding only a lock marker for key `h`, touched at second 5. -/
def c1wSt : Store := updateLocks emptyStore "h" (some 5)

/-- A cache holding a record for key `h` written at epoch second 0. -/
def c5wSt : Store := updateFiles emptyStore "h" (some ⟨.timestamp 0, 0⟩)

/-- A cache holding a record for key `k` written at epoch second 1000. -/
def c2wSt : Store := updateFiles emptyStore "k" (some ⟨.timestamp 1000, 1000⟩)

/-- A git working tree rooted at `/repo` containing the directory
`/repo/sub`, and a second tree rooted at `/other` containing
`/other/x`. -/
def tlEx : String → Option String := fun d =>
  if d = "/repo/sub" ∨ d = "/repo" then some "/repo"
  else if d = "/other/x" then some "/other" else none

/-!
Claim theorems.
-/

/-- C1 counterexample.  The claim states that of two concurrent
`__colorful_carbon_fetch` calls on the same stale identity exactly one
performs the remote synchronization while the other observes the lock and
no-ops.  The lock is a non-atomic existence check (`[[ -f $lock_file ]]`)
followed later by `touch`, so in the schedule `c1Sched` both calls pass
the lock check at seconds 1002 and 1003, before either touches the lock
at seconds 1006 and 1007 — and then both run `git fetch`.  This closed
run refutes the claim: both processes fetched. -/
theorem C1_counterexample :
    (runMachine exEnv c1Sched c1Init).proc1.fetched = true ∧
    (runMachine exEnv c1Sched c1Init).proc2.fetched = true := by decide

/-- C1 (amended): lock creation is a non-atomic check-then-touch, so
mutual exclusion is only guaranteed when a call's lock check happens
while the lock marker exists.  Whenever the `.lock` marker for the
repository's key is present in the store — in particular, once the other
call has created it — a complete `__colorful_carbon_fetch` run observes
it (or the fresh cache) and no-ops: it does not fetch, does not create a
lock, does not write, and leaves the store unchanged. -/
theorem C1_amended_lock_noop (env : ShellEnv) (now endTime tl : Int) (st : Store)
    (h1 : env.inGitRepo = true) (h2 : env.repoRoot ≠ "")
    (h3 : fetchHash env ≠ "") (h4 : st.locks (fetchHash env) = some tl) :
    (maybeSyncRun env now endTime st).store = st ∧
      (maybeSyncRun env now endTime st).fetched = false ∧
      (maybeSyncRun env now endTime st).lockCreated = false ∧
      (maybeSyncRun env now endTime st).wroteRecord = false := by
  simp only [maybeSyncRun, h1, h2, h3, h4, noopResult]
  simp

/-- C1 amended witness: the amended no-op guarantee evaluated on a
concrete store whose lock marker for key `h` exists. -/
theorem C1_amended_witness :
    (maybeSyncRun exEnv 1000 1005 c1wSt).store = c1wSt ∧
      (maybeSyncRun exEnv 1000 1005 c1wSt).fetched = false ∧
      (maybeSyncRun exEnv 1000 1005 c1wSt).lockCreated = false ∧
      (maybeSyncRun exEnv 1000 1005 c1wSt).wroteRecord = false :=
  C1_amended_lock_noop exEnv 1000 1005 5 c1wSt rfl (by decide) (by decide)
    (by decide)

/-- C2 counterexample.  The claim states that the trust evaluator returns
true iff a record is present and fresh, and in particular returns false
when no record is present, for every point in time.  The code initializes
`last_fetch=0` and never tests presence separately, so with an empty
store and the clock at epoch second 100 the age is 100 < 900 and the
evaluator reports fresh even though no record exists. -/
theorem C2_counterexample :
    emptyStore.files "k" = none ∧ isFresh emptyStore "k" 100 = true := by decide

/-- C2 (amended): an absent (or non-numeric) record is treated as
timestamp 0 rather than as a separate presence check; therefore, whenever
the current time is at least the freshness window (900 s past the
epoch), the trust evaluator returns true iff a record holding a valid
timestamp `t` is present and `now - t < 900`. -/
theorem C2_amended (st : Store) (key : String) (now : Int)
    (h : freshnessWindow ≤ now) :
    isFresh st key now = true ↔
      ∃ t, (st.files key).map CacheFile.data = some (.timestamp t) ∧
        now - t < freshnessWindow := by
  unfold isFresh
  rcases hf : (st.files key).map CacheFile.data with _ | d
  · simp [readLastFetch, freshnessWindow] at h ⊢
    omega
  · cases d with
    | timestamp t => simp [readLastFetch]
    | garbage s =>
        simp [readLastFetch, freshnessWindow] at h ⊢
        omega
    | unreadable =>
        simp [readLastFetch, freshnessWindow] at h ⊢
        omega

/-- C2 amended witness: the amended equivalence evaluated at a store
holding timestamp 1000 under key `k`, with the clock at 1200. -/
theorem C2_amended_witness :
    isFresh c2wSt "k" 1200 = true ↔
      ∃ t, (c2wSt.files "k").map CacheFile.data = some (.timestamp t) ∧
        1200 - t < freshnessWindow :=
  C2_amended c2wSt "k" 1200 (by decide)

/-- C3 counterexample.  The claim states that the maintenance sweep also
deletes lock markers that have no matching record or are older than a
generous multiple of the sync duration.  The sweep is
`find ... -type f -not -name "*.lock" -mtime +30 -delete`: lock files are
explicitly excluded.  Here an orphaned lock created at epoch second 0,
with no matching record, survives a sweep run at epoch second 100000000
(over three years later). -/
theorem C3_counterexample :
    c3Store.files "k" = none
    ∧ (sweepStore c3Store 100000000).locks "k" = some 0 := by decide

/-- C3 (amended): the sweep removes records whose age exceeds the
retention window (any record at least 31 whole days old is deleted), but
lock markers are excluded from the sweep by `-not -name "*.lock"` and are
never deleted by it, regardless of their age or of whether a matching
record exists. -/
theorem C3_amended (st : Store) (now : Int) (k : String) (f : CacheFile)
    (hf : st.files k = some f) (hold : 86400 * 31 ≤ now - f.mtime) :
    (sweepStore st now).files k = none ∧
      ∀ k2, (sweepStore st now).locks k2 = st.locks k2 := by
  constructor
  · simp [sweepStore, hf]
    omega
  · intro k2
    rfl

/-- C3 amended witness: a record written at epoch second 0 is deleted by
a sweep at second 86400 * 31, and every lock marker is untouched. -/
theorem C3_amended_witness :
    (sweepStore c8Store (86400 * 31)).files "k" = none ∧
      ∀ k2, (sweepStore c8Store (86400 * 31)).locks k2 = c8Store.locks k2 :=
  C3_amended c8Store (86400 * 31) "k" ⟨.timestamp 0, 0⟩ (by decide) (by decide)

/-- C4: when the record for the resolved identity is fresh (its timestamp
is within the freshness window of the current time), a complete
`__colorful_carbon_fetch` run returns right after the freshness read:
the store is unchanged and no sweep, lock creation, fetch, or write
happens — only the single cache read. -/
theorem C4_fresh_fast_path (env : ShellEnv) (now endTime t m : Int) (st : Store)
    (h1 : env.inGitRepo = true) (h2 : env.repoRoot ≠ "")
    (h3 : fetchHash env ≠ "")
    (h4 : st.files (fetchHash env) = some ⟨.timestamp t, m⟩)
    (h5 : now - t < freshnessWindow) :
    maybeSyncRun env now endTime st =
      { store := st, readStore := true, sweepRan := false,
        lockCreated := false, fetched := false, wroteRecord := false } := by
  simp [maybeSyncRun, h1, h2, h3, h4, h5, readLastFetch, noopResult]

/-- C4 witness: the fast path evaluated on a record written at second 50
with the clock at second 100. -/
theorem C4_witness :
    maybeSyncRun exEnv 100 105 c4St =
      { store := c4St, readStore := true, sweepRan := false,
        lockCreated := false, fetched := false, wroteRecord := false } :=
  C4_fresh_fast_path exEnv 100 105 50 50 c4St rfl (by decide) (by decide)
    (by decide) (by decide)

/-- C5 counterexample.  The claim states that `lastSyncEpochSeconds` is
monotonic non-decreasing and that every write stores the time of the
write or later.  The background subshell writes the `$now` captured at
its staleness check (line 254), not the time of the write (line 269).
In this run a background sync checks at second 1000, a manual pull then
writes 1500, and when the background subshell completes at second 2000
it overwrites the record with 1000: the stored value decreases from 1500
to 1000, and the write performed at second 2000 stores the earlier value
1000. -/
theorem C5_counterexample :
    (runMachine exEnv c5SchedA c5Init).store.files "h"
        = some ⟨.timestamp 1500, 1500⟩
    ∧ (runMachine exEnv c5SchedB c5Init).store.files "h"
        = some ⟨.timestamp 1000, 2000⟩ := by decide

/-- C5 (amended): a manual pull/fetch write stores the clock value at the
moment of the write, while a background-sync write stores the clock value
captured at its staleness check — at least the freshness window (900 s)
later than the value stored at that check, but possibly earlier than the
moment the write lands; hence the stored value increases across writes
except when a background write completes after an interleaved manual
write, in which case it can decrease. -/
theorem C5_amended_write_values (env : ShellEnv) (now endTime mnow : Int)
    (st stw : Store)
    (h1 : env.inGitRepo = true) (h2 : env.repoRoot ≠ "")
    (h3 : fetchHash env ≠ "")
    (h4 : st.locks (fetchHash env) = none)
    (h5 : freshnessWindow ≤
      now - readLastFetch ((st.files (fetchHash env)).map CacheFile.data))
    (h6 : env.mkdirOk = true) (h7 : env.touchOk = true)
    (h8 : env.fetchSucceeds = true) (h9 : env.disableAutofetch = false) :
    ((maybeSyncRun env now endTime st).store.files (fetchHash env)
        = some ⟨.timestamp now, endTime⟩
      ∧ readLastFetch ((st.files (fetchHash env)).map CacheFile.data)
          + freshnessWindow ≤ now)
    ∧ (wrapperCacheUpdate env "pull" 0 mnow stw).1.files
        (hashChain env env.repoRoot) = some ⟨.timestamp mnow, mnow⟩ := by
  refine ⟨⟨?_, by omega⟩, ?_⟩
  · have hnf : ¬ (now - readLastFetch ((st.files (fetchHash env)).map CacheFile.data)
        < freshnessWindow) := by omega
    simp [maybeSyncRun, h1, h2, h3, h4, h6, h7, h8, hnf, updateLocks, updateFiles]
  · simp [wrapperCacheUpdate, h9, h1, h2, h6, updateFiles]

/-- C5 amended witness: a background sync that checked at second 1000
over a record holding 0 writes content 1000 with mtime 1010, and a manual
pull at second 2000 writes content 2000. -/
theorem C5_amended_witness :
    ((maybeSyncRun exEnv 1000 1010 c5wSt).store.files (fetchHash exEnv)
        = some ⟨.timestamp 1000, 1010⟩
      ∧ readLastFetch ((c5wSt.files (fetchHash exEnv)).map CacheFile.data)
          + freshnessWindow ≤ 1000)
    ∧ (wrapperCacheUpdate exEnv "pull" 0 2000 emptyStore).1.files
        (hashChain exEnv exEnv.repoRoot) = some ⟨.timestamp 2000, 2000⟩ :=
  C5_amended_write_values exEnv 1000 1010 2000 c5wSt emptyStore rfl (by decide)
    (by decide) (by decide) (by decide) rfl rfl rfl rfl

/-- C6: when the user's `git pull` or `git fetch` exits with code 0 and
the opt-out variable is unset, the wrapper writes the freshness record
immediately with the current time, touching no lock marker, and the
trust evaluator reports fresh immediately afterwards. -/
theorem C6_manual_pull (env : ShellEnv) (now : Int) (st : Store) (sub : String)
    (h9 : env.disableAutofetch = false)
    (hcmd : sub = "pull" ∨ sub = "fetch")
    (h1 : env.inGitRepo = true) (h2 : env.repoRoot ≠ "") (h6 : env.mkdirOk = true) :
    (wrapperCacheUpdate env sub 0 now st).2 = true
    ∧ (wrapperCacheUpdate env sub 0 now st).1.files (hashChain env env.repoRoot)
        = some ⟨.timestamp now, now⟩
    ∧ (∀ k, (wrapperCacheUpdate env sub 0 now st).1.locks k = st.locks k)
    ∧ isFresh (wrapperCacheUpdate env sub 0 now st).1
        (hashChain env env.repoRoot) now = true := by
  simp [wrapperCacheUpdate, h9, hcmd, h1, h2, h6, updateFiles, isFresh,
    readLastFetch, freshnessWindow]

/-- C6 witness: a successful manual pull at second 500 on an empty cache,
on a system with no hash command (mangled key). -/
theorem C6_witness :
    (wrapperCacheUpdate wEnv "pull" 0 500 emptyStore).2 = true
    ∧ (wrapperCacheUpdate wEnv "pull" 0 500 emptyStore).1.files
        (hashChain wEnv wEnv.repoRoot) = some ⟨.timestamp 500, 500⟩
    ∧ (∀ k, (wrapperCacheUpdate wEnv "pull" 0 500 emptyStore).1.locks k
        = emptyStore.locks k)
    ∧ isFresh (wrapperCacheUpdate wEnv "pull" 0 500 emptyStore).1
        (hashChain wEnv wEnv.repoRoot) 500 = true :=
  C6_manual_pull wEnv 500 emptyStore "pull" rfl (Or.inl rfl) rfl (by decide) rfl

/-- C7 counterexample.  The claim states that an absent, unreadable or
corrupted record reads as Absent and makes the trust evaluator return
false.  An unreadable record takes the `|| echo 0` branch and reads as
timestamp 0, so with the clock at epoch second 10 the age is 10 < 900
and the evaluator reports fresh. -/
theorem C7_counterexample :
    c7Store.files "k" = some ⟨.unreadable, 0⟩
    ∧ isFresh c7Store "k" 10 = true := by decide

/-- C7 (amended): an absent, unreadable, or corrupted (non-timestamp)
record reads as the sentinel timestamp 0 — the read is total and never
raises — and the trust evaluator then returns false whenever the current
time is at least the freshness window (900 s past the epoch). -/
theorem C7_amended (st : Store) (key : String) (now : Int)
    (hbad : (st.files key).map CacheFile.data = none
      ∨ (st.files key).map CacheFile.data = some .unreadable
      ∨ ∃ s, (st.files key).map CacheFile.data = some (.garbage s))
    (h : freshnessWindow ≤ now) :
    readLastFetch ((st.files key).map CacheFile.data) = 0 ∧
      isFresh st key now = false := by
  have h0 : readLastFetch ((st.files key).map CacheFile.data) = 0 := by
    rcases hbad with hb | hb | ⟨s, hb⟩ <;> rw [hb] <;> rfl
  refine ⟨h0, ?_⟩
  unfold isFresh
  rw [h0]
  simp [freshnessWindow] at h ⊢
  omega

/-- C7 amended witness: an absent record at second 1000 reads as 0 and
the evaluator reports stale. -/
theorem C7_amended_witness :
    readLastFetch ((emptyStore.files "k").map CacheFile.data) = 0 ∧
      isFresh emptyStore "k" 1000 = false :=
  C7_amended emptyStore "k" 1000 (Or.inl rfl) (by decide)

/-- C8 counterexample.  The claim states the retention boundary is exact
at 30 days: any record older than the threshold is removed by the next
sweep.  `find -mtime +30` discards the remainder of the division of the
age by 86400 and requires the quotient to exceed 30, so a record aged
30 days plus one second (quotient 30) is retained. -/
theorem C8_counterexample :
    (sweepStore c8Store (30 * 86400 + 1)).files "k"
      = some ⟨.timestamp 0, 0⟩ := by decide

/-- C8 (amended): because `find -mtime +30` truncates the age to whole
days, the effective boundary is exact at 31 days: a record is removed by
a sweep iff its age is at least 31 * 86400 seconds; in particular a
record aged 31 days minus one second is retained and a record aged 31
days is removed. -/
theorem C8_amended (st : Store) (now : Int) (k : String) (f : CacheFile)
    (hf : st.files k = some f) :
    (sweepStore st now).files k = none ↔ 86400 * 31 ≤ now - f.mtime := by
  simp only [sweepStore, hf]
  rcases lt_or_ge (now - f.mtime) (86400 * 31) with hlt | hge
  · rw [if_neg (by omega)]
    simp
    omega
  · rw [if_pos (by omega)]
    simp
    omega

/-- C8 amended witness: the removal equivalence evaluated at age 86400
seconds (one day): kept, and the equivalence's right side is false
too. -/
theorem C8_amended_witness :
    (sweepStore c8Store 86400).files "k" = none ↔ 86400 * 31 ≤ 86400 - (0 : Int) :=
  C8_amended c8Store 86400 "k" ⟨.timestamp 0, 0⟩ (by decide)

/-- C9: the identity resolver hashes the resolved top-level root, so any
two directories resolving to the same working-tree root get the same
identifier, and directories in distinct roots get distinct identifiers
whenever the hash chain does not collide on the two roots (the
formalization of "with overwhelming probability"). -/
theorem C9_resolver (env : ShellEnv) (toplevel : String → Option String)
    (d1 d2 r1 r2 : String) :
    (toplevel d1 = toplevel d2 →
      resolveId env toplevel d1 = resolveId env toplevel d2)
    ∧ (toplevel d1 = some r1 → toplevel d2 = some r2 → r1 ≠ "" → r2 ≠ "" →
        hashChain env r1 ≠ hashChain env r2 →
        resolveId env toplevel d1 ≠ resolveId env toplevel d2) := by
  constructor
  · intro h
    unfold resolveId
    rw [h]
  · intro ha hb hr1 hr2 hne
    unfold resolveId
    rw [ha, hb]
    simp [hr1, hr2, hne]

/-- C9 witness: in the concrete two-tree layout `tlEx`, a subdirectory of
`/repo` resolves to the same identifier as `/repo` itself, and to a
different identifier than a directory of the `/other` tree. -/
theorem C9_witness :
    resolveId wEnv tlEx "/repo/sub" = resolveId wEnv tlEx "/repo"
    ∧ resolveId wEnv tlEx "/repo/sub" ≠ resolveId wEnv tlEx "/other/x" :=
  ⟨(C9_resolver wEnv tlEx "/repo/sub" "/repo" "/repo" "/other").1 (by decide),
   (C9_resolver wEnv tlEx "/repo/sub" "/other/x" "/repo" "/other").2
     (by decide) (by decide) (by decide) (by decide) (by decide)⟩

/-- C10: when `shasum` is unavailable, `__colorful_carbon_fetch` computes
an empty hash and returns before reading the cache, creating a lock, or
fetching (a complete no-op), while the git wrapper and the trust
evaluator fall back to `sha256sum` and then to path mangling: the
wrapper's manual-pull write still happens and the evaluator reads the
same key and reports fresh immediately after it. -/
theorem C10_shasum_unavailable (env : ShellEnv) (now endTime mnow : Int)
    (st stw : Store)
    (hsha : env.shasumAvailable = false)
    (h1 : env.inGitRepo = true) (h2 : env.repoRoot ≠ "")
    (h9 : env.disableAutofetch = false) (h6 : env.mkdirOk = true) :
    maybeSyncRun env now endTime st = noopResult st
    ∧ hashChain env env.repoRoot =
        (if env.sha256sumAvailable then env.sha2 env.repoRoot
          else mangle env.repoRoot)
    ∧ (wrapperCacheUpdate env "pull" 0 mnow stw).2 = true
    ∧ isFresh (wrapperCacheUpdate env "pull" 0 mnow stw).1
        (hashChain env env.repoRoot) mnow = true := by
  refine ⟨?_, ?_, ?_, ?_⟩
  · simp [maybeSyncRun, fetchHash, hsha, h1, h2]
  · simp [hashChain, hsha]
  · simp [wrapperCacheUpdate, h9, h1, h2, h6]
  · simp [wrapperCacheUpdate, h9, h1, h2, h6, updateFiles, isFresh,
      readLastFetch, freshnessWindow]

/-- C10 witness: with no hash command at all, the background fetch is a
complete no-op on an empty cache, while a manual pull at second 2000
writes under the mangled key `_r` and the evaluator reports fresh. -/
theorem C10_witness :
    maybeSyncRun wEnv 1000 1010 emptyStore = noopResult emptyStore
    ∧ hashChain wEnv wEnv.repoRoot =
        (if wEnv.sha256sumAvailable then wEnv.sha2 wEnv.repoRoot
          else mangle wEnv.repoRoot)
    ∧ (wrapperCacheUpdate wEnv "pull" 0 2000 emptyStore).2 = true
    ∧ isFresh (wrapperCacheUpdate wEnv "pull" 0 2000 emptyStore).1
        (hashChain wEnv wEnv.repoRoot) 2000 = true :=
  C10_shasum_unavailable wEnv 1000 1010 2000 emptyStore emptyStore rfl rfl
    (by decide) rfl rfl

end Carbon
